import Mathlib

/-!
# Document-Converter: verification of the asynchronous conversion pipeline

A shallow embedding of the parts of the `pydroidhypothesis/Document-Converter`
repository that the specification's claims talk about:

* `server.py` — the compatibility tables (`DOCUMENT_TYPE_INPUTS`,
  `OUTPUT_PROFILE_FORMATS`), the job record and its in-place updates
  (`_update_job`), the background job handler
  (`_run_document_conversion_job`), the status and download endpoints.
* `src/converters/archive_converters.py` together with
  `src/compressors/*.py` — the multi-step archive chain engine, modelled
  over a symbolic file-system of named values.
* `src/processors/batch_processor.py` — the threaded FIFO worker pool,
  modelled as a labelled transition system.

Python dictionaries are modelled as structures whose optional fields record
whether the corresponding key has ever been set; strings are Lean `String`s
and byte contents are `List Nat`.  File-system effects are made explicit
(values stand for file contents, and temporary-directory creation/removal is
logged as events).
-/

set_option linter.unusedVariables false

namespace DocConverter

/-! ## server.py: compatibility tables (lines 102-125) -/

/-- `DOCUMENT_TYPE_INPUTS` from `server.py`: family name to the input
extensions that identify it, in dictionary insertion order. -/
def DOCUMENT_TYPE_INPUTS : List (String × List String) :=
  [ ("text", [".txt", ".rtf", ".doc", ".docx", ".odt", ".ott", ".sxw", ".html",
              ".htm", ".xml", ".epub", ".fodt"]),
    ("spreadsheet", [".xls", ".xlsx", ".ods", ".ots", ".csv", ".fods"]),
    ("presentation", [".ppt", ".pptx", ".odp", ".otp", ".fodp"]),
    ("publisher", [".pub"]) ]

/-- `OUTPUT_PROFILE_FORMATS` from `server.py`: family name to profile name to
the ordered allow-list of output extensions. -/
def OUTPUT_PROFILE_FORMATS : List (String × List (String × List String)) :=
  [ ("text",
      [ ("legacy", [".pdf", ".txt", ".rtf", ".doc", ".html", ".xml"]),
        ("modern", [".pdf", ".txt", ".docx", ".odt", ".html", ".xml", ".epub"]) ]),
    ("spreadsheet",
      [ ("legacy", [".pdf", ".xls", ".csv"]),
        ("modern", [".pdf", ".xlsx", ".ods", ".csv"]) ]),
    ("presentation",
      [ ("legacy", [".pdf", ".ppt"]),
        ("modern", [".pdf", ".pptx", ".odp"]) ]),
    ("publisher",
      [ ("legacy", [".pdf"]),
        ("modern", [".pdf", ".epub"]) ]) ]

/-- `_detect_document_type` (`server.py` lines 169-173): the first family
whose extension set contains `ext`; `None` when no family claims it. -/
def detectDocumentType (ext : String) : Option String :=
  (DOCUMENT_TYPE_INPUTS.find? (fun p => p.2.contains ext)).map Prod.fst

/-- Key membership test for `OUTPUT_PROFILE_FORMATS`
(the Python `selected_type not in OUTPUT_PROFILE_FORMATS` check). -/
def isKnownDocumentType (t : String) : Bool :=
  OUTPUT_PROFILE_FORMATS.any (fun p => p.1 == t)

/-- `_get_output_formats_for` (`server.py` lines 176-177):
`OUTPUT_PROFILE_FORMATS.get(doc_type, dict()).get(output_profile, [])`. -/
def getOutputFormatsFor (docType outputProfile : String) : List String :=
  match OUTPUT_PROFILE_FORMATS.find? (fun p => p.1 == docType) with
  | none => []
  | some p =>
    match p.2.find? (fun q => q.1 == outputProfile) with
    | none => []
    | some q => q.2

/-! ## server.py: the job record and `_update_job` (lines 128-202, 627-649)

A job record is a Python dict created with a fixed key set in
`start_document_conversion`; `_update_job` merges keyword updates into it.
Each dict value that can be `None` is an `Option`; an update structure field
of `none` means the corresponding keyword was not passed (the key keeps its
previous value), mirroring `job.update(updates)`. -/

/-- The conversion-job record stored in `CONVERSION_JOBS`
(`server.py` lines 629-649).  `allowedOutputs` models the presence of an
allow-list key in the dict: no code path of `server.py` ever writes such a
key into a job record, so it stays `none` throughout. -/
structure JobRecord where
  status : String
  progress : Nat
  stage : String
  message : String
  outputFile : Option String
  outputFilename : Option String
  conversionId : Option String
  error : Option String
  allowedOutputs : Option (List String)
  deriving Repr, DecidableEq

/-- One `_update_job(job_id, **updates)` call: `none` fields are keywords
that were not passed. -/
structure JobUpdate where
  status : Option String := none
  progress : Option Nat := none
  stage : Option String := none
  message : Option String := none
  outputFile : Option (Option String) := none
  outputFilename : Option (Option String) := none
  conversionId : Option (Option String) := none
  error : Option (Option String) := none

/-- `_update_job` (`server.py` lines 186-192) applied to a present record:
`job.update(updates)` keeps every key that the update does not mention. -/
def applyUpdate (j : JobRecord) (u : JobUpdate) : JobRecord :=
  { status := u.status.getD j.status
    progress := u.progress.getD j.progress
    stage := u.stage.getD j.stage
    message := u.message.getD j.message
    outputFile := u.outputFile.getD j.outputFile
    outputFilename := u.outputFilename.getD j.outputFilename
    conversionId := u.conversionId.getD j.conversionId
    error := u.error.getD j.error
    allowedOutputs := j.allowedOutputs }

/-- The record stored by `start_document_conversion`
(`server.py` lines 628-649): status `queued`, progress 5, no output, no error. -/
def initialJobRecord : JobRecord :=
  { status := "queued", progress := 5, stage := "queued", message := "Job queued",
    outputFile := none, outputFilename := none, conversionId := none,
    error := none, allowedOutputs := none }

/-- The declared inputs of one conversion job, as read back from the job
record at the top of `_run_document_conversion_job` (lines 210-217).
`ext` is `input_path.suffix.lower()`, `outPath`/`outName` stand for
`str(output_path)` and `output_path.name`. -/
structure JobInputs where
  ext : String
  selectedType : String
  outputProfile : String
  outputFormat : String
  outPath : String
  outName : String

/-- The behaviour of the delegated document converter call
`toolkit.document_converter.convert(...)` plus the later
`output_path.exists()` probe, supplied as an oracle: `raises` models the call
raising an exception with text `excText`; otherwise it returns a dict with
`success`, optional `message` and optional `error`; `outputExists` is the
result of the `output_path.exists()` check at line 315. -/
structure ConvOutcome where
  raises : Bool
  excText : String
  success : Bool
  message : Option String
  error : Option String
  outputExists : Bool

/-- The terminal statuses of the job state machine. -/
def isTerminalStatus (s : String) : Prop :=
  s = "completed" ∨ s = "failed"

instance (s : String) : Decidable (isTerminalStatus s) := by
  unfold isTerminalStatus; infer_instance

/-- `_run_document_conversion_job` (`server.py` lines 205-343), as the
sequence of job-record states it writes through `_update_job`, starting from
the record created by `start_document_conversion`.  The second component
records whether the underlying converter was invoked
(`toolkit.document_converter.convert`, line 277).  `cid` is the
`conversion_id` generated at line 219. -/
def runDocumentConversionJob (inp : JobInputs) (conv : ConvOutcome) (cid : String) :
    List JobRecord × Bool :=
  let j0 := initialJobRecord
  let j1 := applyUpdate j0
    { status := some "running", progress := some 15, stage := some "validating",
      message := some "Validating input file..." }
  match detectDocumentType inp.ext with
  | none =>
    let j2 := applyUpdate j1
      { status := some "failed", progress := some 100, stage := some "failed",
        message := some ("Unsupported source file type: " ++
          (if inp.ext = "" then "(none)" else inp.ext)) }
    ([j0, j1, j2], false)
  | some detectedType =>
    if inp.selectedType ≠ "auto" ∧ ¬ isKnownDocumentType inp.selectedType then
      let j2 := applyUpdate j1
        { status := some "failed", progress := some 100, stage := some "failed",
          message := some ("Unsupported document type: " ++ inp.selectedType) }
      ([j0, j1, j2], false)
    else if inp.outputProfile ≠ "legacy" ∧ inp.outputProfile ≠ "modern" then
      let j2 := applyUpdate j1
        { status := some "failed", progress := some 100, stage := some "failed",
          message := some ("Unsupported output profile: " ++ inp.outputProfile) }
      ([j0, j1, j2], false)
    else
      let effectiveType := if inp.selectedType = "auto" then detectedType else inp.selectedType
      if inp.selectedType ≠ "auto" ∧ inp.selectedType ≠ detectedType then
        let j2 := applyUpdate j1
          { status := some "failed", progress := some 100, stage := some "failed",
            message := some ("File type mismatch. Uploaded file is " ++ detectedType ++
              ", selected type is " ++ inp.selectedType ++ ".") }
        ([j0, j1, j2], false)
      else
        let allowedOutputs := getOutputFormatsFor effectiveType inp.outputProfile
        if ¬ allowedOutputs.contains inp.outputFormat then
          let j2 := applyUpdate j1
            { status := some "failed", progress := some 100, stage := some "failed",
              message := some ("Output format " ++ inp.outputFormat ++
                " is not allowed for type " ++ effectiveType ++
                " with profile " ++ inp.outputProfile ++ ".") }
          ([j0, j1, j2], false)
        else
          let j2 := applyUpdate j1
            { progress := some 60, stage := some "converting",
              message := some "Converting with LibreOffice..." }
          -- the converter is invoked here (line 277); its outcome is `conv`
          if conv.raises then
            let j3 := applyUpdate j2
              { status := some "failed", progress := some 100, stage := some "failed",
                message := some ("Conversion failed: " ++ conv.excText),
                error := some (some conv.excText) }
            ([j0, j1, j2, j3], true)
          else if ¬ conv.success then
            let j3 := applyUpdate j2
              { status := some "failed", progress := some 100, stage := some "failed",
                message := some (conv.message.getD "Document conversion failed"),
                error := some conv.error, conversionId := some (some cid) }
            ([j0, j1, j2, j3], true)
          else
            let j3 := applyUpdate j2
              { progress := some 90, stage := some "finalizing",
                message := some "Preparing download..." }
            if ¬ conv.outputExists then
              let j4 := applyUpdate j3
                { status := some "failed", progress := some 100, stage := some "failed",
                  message := some "Converted file is missing" }
              ([j0, j1, j2, j3, j4], true)
            else
              let j4 := applyUpdate j3
                { status := some "completed", progress := some 100, stage := some "completed",
                  message := some "Conversion complete",
                  conversionId := some (some cid),
                  outputFile := some (some inp.outPath),
                  outputFilename := some (some inp.outName) }
              ([j0, j1, j2, j3, j4], true)

/-- The last record of a job run: the state the registry holds after the
handler returns. -/
def finalJobRecord (inp : JobInputs) (conv : ConvOutcome) (cid : String) : JobRecord :=
  (runDocumentConversionJob inp conv cid).1.getLast?.getD initialJobRecord

/-! ## server.py: the validation sequence in isolation

`validateConversionRequest` names the five ordered checks of
`_run_document_conversion_job` (and of the synchronous `convert_document`
endpoint, which runs the same sequence): it returns the first failing check,
using the error taxonomy of the specification. -/

/-- The validation-failure taxonomy of the specification (§4.2, §7). -/
inductive ValidationError where
  | unsupportedSourceType (ext : String)
  | unsupportedDocumentType (t : String)
  | unsupportedProfile (p : String)
  | typeMismatch (detected declared : String)
  | outputNotAllowed (fmt family profile : String)
  deriving Repr, DecidableEq

/-- The ordered, short-circuiting validation sequence of
`_run_document_conversion_job` (`server.py` lines 223-274): source extension,
declared family, profile, declared-vs-detected mismatch, output allow-list. -/
def validateConversionRequest (inp : JobInputs) : Option ValidationError :=
  match detectDocumentType inp.ext with
  | none => some (.unsupportedSourceType inp.ext)
  | some detectedType =>
    if inp.selectedType ≠ "auto" ∧ ¬ isKnownDocumentType inp.selectedType then
      some (.unsupportedDocumentType inp.selectedType)
    else if inp.outputProfile ≠ "legacy" ∧ inp.outputProfile ≠ "modern" then
      some (.unsupportedProfile inp.outputProfile)
    else
      let effectiveType := if inp.selectedType = "auto" then detectedType else inp.selectedType
      if inp.selectedType ≠ "auto" ∧ inp.selectedType ≠ detectedType then
        some (.typeMismatch detectedType inp.selectedType)
      else if ¬ (getOutputFormatsFor effectiveType inp.outputProfile).contains inp.outputFormat then
        some (.outputNotAllowed inp.outputFormat effectiveType inp.outputProfile)
      else
        none

/-! ## server.py: status and download endpoints (lines 663-717) -/

/-- The JSON payload of `get_document_conversion_status`
(`server.py` lines 669-678): its key set is exactly `jobId`, `status`,
`progress`, `stage`, `message`, `outputFilename`, `conversionId`, `error` —
it carries no allow-list. -/
structure StatusPayload where
  status : String
  progress : Nat
  stage : String
  message : String
  outputFilename : Option String
  conversionId : Option String
  error : Option String
  deriving Repr, DecidableEq

/-- `get_document_conversion_status` (`server.py` lines 663-678):
`None` models the 404 "Job not found" response for an unknown or reaped id. -/
def getDocumentConversionStatus (entry : Option JobRecord) : Option StatusPayload :=
  entry.map fun j =>
    { status := j.status, progress := j.progress, stage := j.stage,
      message := j.message, outputFilename := j.outputFilename,
      conversionId := j.conversionId, error := j.error }

/-- Outcomes of the download endpoint. -/
inductive DownloadOutcome where
  | notFound
  | conflict
  | served (outputFile : String)
  deriving Repr, DecidableEq

/-- `download_document_conversion` (`server.py` lines 681-717): 404 on an
unknown id, 409 unless the status is `completed`, 404 when the output path is
unset or the file is gone (`fsExists`); on success the file is served and the
`after_this_request` cleanup pops the job record (`_pop_job`, line 710).
Returns the outcome together with the registry entry afterwards. -/
def downloadDocumentConversion (entry : Option JobRecord) (fsExists : Bool) :
    DownloadOutcome × Option JobRecord :=
  match entry with
  | none => (.notFound, none)
  | some j =>
    if j.status ≠ "completed" then (.conflict, some j)
    else
      match j.outputFile with
      | none => (.notFound, some j)
      | some path =>
        if ¬ fsExists then (.notFound, some j)
        else (.served path, none)

end DocConverter

namespace DocConverter

/-- C1: every conversion job runs the five validation checks as one ordered,
short-circuiting sequence, the converter is invoked exactly when every check
passes, a failed check terminates the job as `failed`, and a `.csv` input
(spreadsheet family) with declared type `presentation` and a recognized
profile fails with the `TypeMismatch` error — before the allow-list check,
whatever output format was requested. -/
theorem validation_gates_converter_and_csv_presentation_mismatch
    (inp : JobInputs) (conv : ConvOutcome) (cid : String) :
    ((runDocumentConversionJob inp conv cid).2 = true ↔
        validateConversionRequest inp = none)
    ∧ (validateConversionRequest inp ≠ none →
        (runDocumentConversionJob inp conv cid).2 = false
        ∧ (finalJobRecord inp conv cid).status = "failed")
    ∧ (inp.ext = ".csv" → inp.selectedType = "presentation" →
        inp.outputProfile = "legacy" ∨ inp.outputProfile = "modern" →
        validateConversionRequest inp =
          some (.typeMismatch "spreadsheet" "presentation")
        ∧ (runDocumentConversionJob inp conv cid).2 = false
        ∧ (finalJobRecord inp conv cid).message =
            "File type mismatch. Uploaded file is spreadsheet, selected type is presentation.") := by
  obtain ⟨ext, sel, prof, fmt, outp, outn⟩ := inp
  refine ⟨?_, ?_, ?_⟩
  · cases hd : detectDocumentType ext with
    | none =>
      simp [runDocumentConversionJob, validateConversionRequest, hd]
    | some detected =>
      simp only [runDocumentConversionJob, validateConversionRequest, hd]
      split_ifs <;> simp_all
  · intro hval
    cases hd : detectDocumentType ext with
    | none =>
      simp [runDocumentConversionJob, validateConversionRequest, finalJobRecord, hd,
        List.getLast?, applyUpdate]
    | some detected =>
      simp only [runDocumentConversionJob, validateConversionRequest, finalJobRecord, hd] at hval ⊢
      split_ifs at hval ⊢ <;> simp_all [List.getLast?, applyUpdate]
  · intro hext hsel hprof
    subst hext hsel
    have hd : detectDocumentType ".csv" = some "spreadsheet" := by decide
    have hk : isKnownDocumentType "presentation" = true := by decide
    rcases hprof with h | h <;> subst h <;>
      simp [runDocumentConversionJob, validateConversionRequest, finalJobRecord, hd, hk,
        List.getLast?, applyUpdate]

/-- Witness for C1: the concrete job (`.csv` input, declared type
`presentation`, profile `modern`, requested output `.pdf`) fails with the
`TypeMismatch` error and the converter is not invoked. -/
theorem validation_gates_converter_witness :
    validateConversionRequest
        ⟨".csv", "presentation", "modern", ".pdf", "/tmp/j/out.pdf", "out.pdf"⟩ =
      some (.typeMismatch "spreadsheet" "presentation")
    ∧ (runDocumentConversionJob
        ⟨".csv", "presentation", "modern", ".pdf", "/tmp/j/out.pdf", "out.pdf"⟩
        ⟨false, "", true, none, none, true⟩ "cid").2 = false
    ∧ (finalJobRecord
        ⟨".csv", "presentation", "modern", ".pdf", "/tmp/j/out.pdf", "out.pdf"⟩
        ⟨false, "", true, none, none, true⟩ "cid").message =
        "File type mismatch. Uploaded file is spreadsheet, selected type is presentation." :=
  (validation_gates_converter_and_csv_presentation_mismatch
    ⟨".csv", "presentation", "modern", ".pdf", "/tmp/j/out.pdf", "out.pdf"⟩
    ⟨false, "", true, none, none, true⟩ "cid").2.2 rfl rfl (Or.inr rfl)

/-! ## C2: the output allow-list on the job pipeline -/

/-- A validation-failure JSON body of the synchronous `convert_document`
endpoint (`server.py` lines 514-543): a message and — only on the allow-list
failure (lines 535-543) — the `allowed_outputs` key. -/
structure SyncFailureResponse where
  message : String
  allowedOutputs : Option (List String)
  deriving Repr, DecidableEq

/-- The validation sequence of the synchronous `convert_document` endpoint
(`server.py` lines 514-543): the same five ordered checks as the job handler,
but its allow-list failure response carries `allowed_outputs`.  Returns the
400 response body, or `none` when validation passes. -/
def convertDocumentValidation (ext selectedType outputProfile outputFormat : String) :
    Option SyncFailureResponse :=
  match detectDocumentType ext with
  | none =>
    some ⟨"Unsupported source file type: " ++ (if ext = "" then "(none)" else ext), none⟩
  | some detectedType =>
    if selectedType ≠ "auto" ∧ ¬ isKnownDocumentType selectedType then
      some ⟨"Unsupported document type: " ++ selectedType, none⟩
    else if outputProfile ≠ "legacy" ∧ outputProfile ≠ "modern" then
      some ⟨"Unsupported output profile: " ++ outputProfile, none⟩
    else
      let effectiveType := if selectedType = "auto" then detectedType else selectedType
      if selectedType ≠ "auto" ∧ selectedType ≠ detectedType then
        some ⟨"File type mismatch. Uploaded file is " ++ detectedType ++
          ", selected type is " ++ selectedType ++ ".", none⟩
      else
        let allowedOutputs := getOutputFormatsFor effectiveType outputProfile
        if ¬ allowedOutputs.contains outputFormat then
          some ⟨"Output format " ++ outputFormat ++ " is not allowed for type " ++
            effectiveType ++ " with profile " ++ outputProfile ++ ".",
            some allowedOutputs⟩
        else none

/-- Counterexample to C2: a concrete spreadsheet/`modern` job requesting
`.ppt` does fail, but its failure record carries only the message — no
allow-list key is ever written into the job record, so the allow-list
`[".pdf", ".xlsx", ".ods", ".csv"]` is not surfaced in the job's failure
result. -/
theorem allow_list_missing_from_job_failure_counterexample :
    (finalJobRecord ⟨".csv", "spreadsheet", "modern", ".ppt", "/tmp/j/o.ppt", "o.ppt"⟩
        ⟨false, "", true, none, none, true⟩ "cid").status = "failed"
    ∧ (finalJobRecord ⟨".csv", "spreadsheet", "modern", ".ppt", "/tmp/j/o.ppt", "o.ppt"⟩
        ⟨false, "", true, none, none, true⟩ "cid").allowedOutputs = none
    ∧ ¬ (finalJobRecord ⟨".csv", "spreadsheet", "modern", ".ppt", "/tmp/j/o.ppt", "o.ppt"⟩
        ⟨false, "", true, none, none, true⟩ "cid").allowedOutputs =
          some [".pdf", ".xlsx", ".ods", ".csv"] := by
  refine ⟨?_, ?_, ?_⟩ <;> decide

/-- C2 as amended: a spreadsheet-family job with profile `modern` requesting
`.ppt` fails the allow-list check with the `OutputNotAllowed` message naming
format, family and profile; the allow-list for spreadsheet/`modern` is
exactly `[".pdf", ".xlsx", ".ods", ".csv"]` and the synchronous conversion
endpoint surfaces it in its failure response, but the job's failure record
carries only the message and no allow-list. -/
theorem spreadsheet_modern_ppt_rejected_without_allow_list
    (ext sel : String) (conv : ConvOutcome) (cid outp outn : String)
    (hd : detectDocumentType ext = some "spreadsheet")
    (hsel : sel = "auto" ∨ sel = "spreadsheet") :
    validateConversionRequest ⟨ext, sel, "modern", ".ppt", outp, outn⟩ =
      some (.outputNotAllowed ".ppt" "spreadsheet" "modern")
    ∧ (finalJobRecord ⟨ext, sel, "modern", ".ppt", outp, outn⟩ conv cid).status = "failed"
    ∧ (finalJobRecord ⟨ext, sel, "modern", ".ppt", outp, outn⟩ conv cid).message =
        "Output format .ppt is not allowed for type spreadsheet with profile modern."
    ∧ (finalJobRecord ⟨ext, sel, "modern", ".ppt", outp, outn⟩ conv cid).allowedOutputs = none
    ∧ (runDocumentConversionJob ⟨ext, sel, "modern", ".ppt", outp, outn⟩ conv cid).2 = false
    ∧ getOutputFormatsFor "spreadsheet" "modern" = [".pdf", ".xlsx", ".ods", ".csv"]
    ∧ convertDocumentValidation ext sel "modern" ".ppt" =
        some ⟨"Output format .ppt is not allowed for type spreadsheet with profile modern.",
          some [".pdf", ".xlsx", ".ods", ".csv"]⟩ := by
  have hk : isKnownDocumentType "spreadsheet" = true := by decide
  have hlist : getOutputFormatsFor "spreadsheet" "modern" = [".pdf", ".xlsx", ".ods", ".csv"] := by
    decide
  rcases hsel with h | h <;> subst h <;>
    simp [runDocumentConversionJob, validateConversionRequest, finalJobRecord,
      convertDocumentValidation, hd, hk, hlist, List.getLast?, applyUpdate, initialJobRecord]

/-- Witness for the amended C2 at the concrete job of the counterexample. -/
theorem spreadsheet_modern_ppt_rejected_witness :
    validateConversionRequest ⟨".csv", "spreadsheet", "modern", ".ppt", "/t/o.ppt", "o.ppt"⟩ =
      some (.outputNotAllowed ".ppt" "spreadsheet" "modern")
    ∧ convertDocumentValidation ".csv" "spreadsheet" "modern" ".ppt" =
        some ⟨"Output format .ppt is not allowed for type spreadsheet with profile modern.",
          some [".pdf", ".xlsx", ".ods", ".csv"]⟩ := by
  have h := spreadsheet_modern_ppt_rejected_without_allow_list ".csv" "spreadsheet"
    ⟨false, "", true, none, none, true⟩ "cid" "/t/o.ppt" "o.ppt" (by decide) (Or.inr rfl)
  exact ⟨h.1, h.2.2.2.2.2.2⟩

/-! ## C3-C6: lifecycle invariants of the job trace -/

/-- The sequence of job-record states over one job's lifetime, from creation
to the handler's return. -/
def jobTrace (inp : JobInputs) (conv : ConvOutcome) (cid : String) : List JobRecord :=
  (runDocumentConversionJob inp conv cid).1

/-- C3: over every possible run of a conversion job, the stored progress
values are pairwise non-decreasing integers bounded by 100, and a record's
progress is 100 exactly when its status is terminal. -/
theorem progress_monotone_bounded_and_100_iff_terminal
    (inp : JobInputs) (conv : ConvOutcome) (cid : String) :
    List.Pairwise (fun a b => a.progress ≤ b.progress) (jobTrace inp conv cid)
    ∧ ∀ r ∈ jobTrace inp conv cid,
        r.progress ≤ 100 ∧ (r.progress = 100 ↔ isTerminalStatus r.status) := by
  cases hd : detectDocumentType inp.ext <;>
    simp only [jobTrace, runDocumentConversionJob, hd] <;>
    split_ifs <;>
    refine ⟨by simp [List.pairwise_cons, applyUpdate, initialJobRecord], ?_⟩ <;>
    simp [List.forall_mem_cons, applyUpdate, initialJobRecord, isTerminalStatus]

/-- C4 as amended: a terminal record appears only as the last entry of the
job's update sequence, so once terminal the stored status never transitions
again; reading the status returns that record while it is registered, and the
download endpoint never rewrites a record — it only removes a `completed`
one after serving it, after which status reads fail with NotFound. -/
theorem terminal_status_never_transitions
    (inp : JobInputs) (conv : ConvOutcome) (cid : String) :
    (∀ r ∈ (jobTrace inp conv cid).dropLast, ¬ isTerminalStatus r.status)
    ∧ (∃ last, (jobTrace inp conv cid).getLast? = some last ∧ isTerminalStatus last.status)
    ∧ (∀ j : JobRecord, ∀ fs : Bool,
        (downloadDocumentConversion (some j) fs).2 = some j
        ∨ ((downloadDocumentConversion (some j) fs).2 = none ∧ j.status = "completed")) := by
  refine ⟨?_, ?_, ?_⟩
  · cases hd : detectDocumentType inp.ext <;>
      simp only [jobTrace, runDocumentConversionJob, hd] <;>
      split_ifs <;>
      simp [applyUpdate, initialJobRecord, isTerminalStatus]
  · cases hd : detectDocumentType inp.ext <;>
      simp only [jobTrace, runDocumentConversionJob, hd] <;>
      split_ifs <;>
      simp [applyUpdate, initialJobRecord, isTerminalStatus, List.getLast?]
  · intro j fs
    unfold downloadDocumentConversion
    by_cases hs : j.status = "completed"
    · cases ho : j.outputFile with
      | none => simp [hs, ho]
      | some p => by_cases hf : fs <;> simp [hs, ho, hf]
    · simp [hs]

/-- The record of a job that completes successfully: `.docx` input detected
as `text`, `.pdf` allowed for `text`/`modern`, converter succeeds and the
output file exists. -/
def completedDemoRecord : JobRecord :=
  finalJobRecord ⟨".docx", "auto", "modern", ".pdf", "/tmp/j/report.pdf", "report.pdf"⟩
    ⟨false, "", true, none, none, true⟩ "cid"

/-- Counterexample to C4 as stated: after this completed job is downloaded,
the cleanup pops the record, and a subsequent status read returns NotFound
(`none`) rather than the same terminal state. -/
theorem status_read_after_download_counterexample :
    completedDemoRecord.status = "completed"
    ∧ getDocumentConversionStatus (some completedDemoRecord) ≠ none
    ∧ (downloadDocumentConversion (some completedDemoRecord) true).2 = none
    ∧ getDocumentConversionStatus
        (downloadDocumentConversion (some completedDemoRecord) true).2 = none := by
  refine ⟨by decide, by decide, by decide, by decide⟩

/-- Counterexample to C5: a job that fails validation (a `.csv` upload with
declared type `presentation`) reaches the terminal `failed` state with
neither `outputFile` nor `error` set — not exactly one of the two. -/
theorem failed_job_with_neither_output_nor_error_counterexample :
    (finalJobRecord ⟨".csv", "presentation", "modern", ".pdf", "/t/x.pdf", "x.pdf"⟩
        ⟨false, "", true, none, none, true⟩ "cid").status = "failed"
    ∧ (finalJobRecord ⟨".csv", "presentation", "modern", ".pdf", "/t/x.pdf", "x.pdf"⟩
        ⟨false, "", true, none, none, true⟩ "cid").outputFile = none
    ∧ (finalJobRecord ⟨".csv", "presentation", "modern", ".pdf", "/t/x.pdf", "x.pdf"⟩
        ⟨false, "", true, none, none, true⟩ "cid").error = none := by
  refine ⟨by decide, by decide, by decide⟩

/-- C5 as amended: every job ends terminal; a `completed` job has
`outputFile` set and `error` unset; a `failed` job never has `outputFile`
set; `error` is only ever set on failures — but it is set only by the
converter-failure and exception paths, so validation failures (and the
missing-output failure) leave `error` unset. -/
theorem terminal_output_file_error_discipline
    (inp : JobInputs) (conv : ConvOutcome) (cid : String) :
    isTerminalStatus (finalJobRecord inp conv cid).status
    ∧ ((finalJobRecord inp conv cid).status = "completed" →
        (finalJobRecord inp conv cid).outputFile = some inp.outPath
        ∧ (finalJobRecord inp conv cid).error = none)
    ∧ ((finalJobRecord inp conv cid).status = "failed" →
        (finalJobRecord inp conv cid).outputFile = none)
    ∧ ((finalJobRecord inp conv cid).error ≠ none →
        (finalJobRecord inp conv cid).status = "failed")
    ∧ (validateConversionRequest inp ≠ none →
        (finalJobRecord inp conv cid).error = none) := by
  cases hd : detectDocumentType inp.ext <;>
    simp only [finalJobRecord, runDocumentConversionJob, validateConversionRequest, hd] <;>
    split_ifs <;>
    simp [applyUpdate, initialJobRecord, isTerminalStatus, List.getLast?]

/-- C6: a job is `completed` only when the converter did not raise, reported
success, and the declared output file exists on storage; in particular a
converter success with a missing output file still ends the job `failed`
(with the "Converted file is missing" message whenever the converter was
actually invoked). -/
theorem converter_success_alone_never_completes
    (inp : JobInputs) (conv : ConvOutcome) (cid : String) :
    ((finalJobRecord inp conv cid).status = "completed" →
        conv.raises = false ∧ conv.success = true ∧ conv.outputExists = true)
    ∧ (conv.raises = false → conv.success = true → conv.outputExists = false →
        (finalJobRecord inp conv cid).status = "failed"
        ∧ ((runDocumentConversionJob inp conv cid).2 = true →
            (finalJobRecord inp conv cid).message = "Converted file is missing")) := by
  cases hd : detectDocumentType inp.ext <;>
    simp only [finalJobRecord, runDocumentConversionJob, hd] <;>
    split_ifs <;>
    simp_all [applyUpdate, initialJobRecord, List.getLast?]

/-- Witness for C6: a `.docx` → `.pdf` job whose converter claims success
while the output file is missing ends `failed` with the missing-file
message. -/
theorem converter_success_alone_never_completes_witness :
    (finalJobRecord ⟨".docx", "auto", "modern", ".pdf", "/tmp/j/r.pdf", "r.pdf"⟩
        ⟨false, "", true, none, none, false⟩ "cid").status = "failed"
    ∧ (finalJobRecord ⟨".docx", "auto", "modern", ".pdf", "/tmp/j/r.pdf", "r.pdf"⟩
        ⟨false, "", true, none, none, false⟩ "cid").message = "Converted file is missing" := by
  have h := (converter_success_alone_never_completes
    ⟨".docx", "auto", "modern", ".pdf", "/tmp/j/r.pdf", "r.pdf"⟩
    ⟨false, "", true, none, none, false⟩ "cid").2 rfl rfl rfl
  exact ⟨h.1, h.2 (by decide)⟩

/-! ## src/processors/batch_processor.py: the worker pool (C9)

`BatchProcessor` protects `_running`, `_queue` and `_in_progress` with one
condition variable; the labelled transition system below has one step per
atomic critical section of the source. -/

/-- The shared state of a `BatchProcessor`. -/
structure PoolState where
  running : Bool
  queue : List String
  inProgress : List String
  deriving Repr, DecidableEq

/-- The observable actions on a `BatchProcessor`. -/
inductive PoolLabel where
  | submit (jobId : String)
  | stop
  | dequeue (jobId : String)
  | finish (jobId : String)
  | workerExit
  deriving Repr, DecidableEq

/-- One atomic transition of `BatchProcessor`:

* `submit` (lines 46-52) appends unconditionally — it does not test
  `_running`;
* `stop` (lines 41-44) clears `_running` and wakes all workers;
* `dequeue` is a worker leaving the wait loop of `_worker_loop`
  (lines 77-85): the loop `while self._running and not self._queue: wait()`
  is left whenever the queue is non-empty, and the worker then returns only
  if `not self._running and not self._queue` — so with a non-empty queue it
  pops the head and marks it in progress, whether or not the pool is
  stopped;
* `finish` (lines 87-91) removes the in-progress marker after the handler
  returns;
* `workerExit` is the `return` of `_worker_loop` (line 82), possible exactly
  when the pool is stopped and the queue is empty. -/
inductive PoolStep : PoolState → PoolLabel → PoolState → Prop where
  | submit (s : PoolState) (jobId : String) :
      PoolStep s (.submit jobId) ⟨s.running, s.queue ++ [jobId], s.inProgress⟩
  | stop (s : PoolState) :
      PoolStep s .stop ⟨false, s.queue, s.inProgress⟩
  | dequeue (s : PoolState) (jobId : String) (rest : List String) :
      s.queue = jobId :: rest →
      PoolStep s (.dequeue jobId) ⟨s.running, rest, s.inProgress ++ [jobId]⟩
  | finish (s : PoolState) (jobId : String) :
      jobId ∈ s.inProgress →
      PoolStep s (.finish jobId) ⟨s.running, s.queue, s.inProgress.erase jobId⟩
  | workerExit (s : PoolState) :
      s.running = false → s.queue = [] →
      PoolStep s .workerExit s

/-- An execution of the pool: a list of labelled steps from one state to
another. -/
inductive PoolReaches : PoolState → List PoolLabel → PoolState → Prop where
  | refl (s : PoolState) : PoolReaches s [] s
  | step {s s' s'' : PoolState} {l : PoolLabel} {ls : List PoolLabel} :
      PoolStep s l s' → PoolReaches s' ls s'' → PoolReaches s (l :: ls) s''

/-- Counterexample to C9: a valid execution of the pool in which a worker
dequeues job `j2` from the queue *after* `stop()` has run — the queue was
non-empty at stop time, so the wait loop is left and the worker pops it. -/
theorem pool_dequeues_after_stop_counterexample :
    PoolReaches ⟨true, [], []⟩
      [.submit "j1", .submit "j2", .dequeue "j1", .stop, .dequeue "j2"]
      ⟨false, [], ["j1", "j2"]⟩
    ∧ PoolStep ⟨false, ["j2"], ["j1"]⟩ (.dequeue "j2") ⟨false, [], ["j1", "j2"]⟩ :=
  ⟨.step (.submit _ "j1") (.step (.submit _ "j2") (.step (.dequeue _ "j1" ["j2"] rfl)
      (.step (.stop _) (.step (.dequeue _ "j2" [] rfl) (.refl _))))),
    .dequeue _ "j2" [] rfl⟩

/-- C9 as amended: `stop()` does not prevent workers from pulling queued
jobs — a dequeue is possible exactly when the queue is non-empty, whether or
not the pool is stopped, so a stopped pool's workers drain the remaining
queue; a worker terminates exactly when the pool is stopped *and* the queue
is empty; and no transition interrupts an in-flight job (only `finish`,
after the handler returns, clears its marker). -/
theorem stopped_pool_drains_queue (s : PoolState) (jobId : String) :
    ((∃ s', PoolStep s (.dequeue jobId) s') ↔ ∃ rest, s.queue = jobId :: rest)
    ∧ (PoolStep s .workerExit s ↔ s.running = false ∧ s.queue = [])
    ∧ (s.running = false → s.queue = [] → ∀ s', ¬ PoolStep s (.dequeue jobId) s')
    ∧ (∀ s', PoolStep s (.finish jobId) s' → jobId ∈ s.inProgress) := by
  refine ⟨⟨?_, ?_⟩, ⟨?_, ?_⟩, ?_, ?_⟩
  · rintro ⟨s', h⟩
    cases h with
    | dequeue _ rest hq => exact ⟨rest, hq⟩
  · rintro ⟨rest, hq⟩
    exact ⟨_, .dequeue s jobId rest hq⟩
  · intro h
    cases h with
    | workerExit hr hq => exact ⟨hr, hq⟩
  · rintro ⟨hr, hq⟩
    exact .workerExit s hr hq
  · intro hr hq s' h
    cases h with
    | dequeue _ rest hqq => rw [hq] at hqq; cases hqq
  · intro s' h
    cases h with
    | finish _ hin => exact hin

/-- Witness for the amended C9: from a stopped pool with `j2` still queued a
dequeue step exists, and from a stopped pool with an empty queue none does. -/
theorem stopped_pool_drains_queue_witness :
    (∃ s', PoolStep ⟨false, ["j2"], ["j1"]⟩ (.dequeue "j2") s')
    ∧ ¬ ∃ s', PoolStep ⟨false, [], ["j1"]⟩ (.dequeue "j2") s' := by
  constructor
  · exact (stopped_pool_drains_queue ⟨false, ["j2"], ["j1"]⟩ "j2").1.2 ⟨[], rfl⟩
  · rintro ⟨s', h⟩
    exact (stopped_pool_drains_queue ⟨false, [], ["j1"]⟩ "j2").2.2.1 rfl rfl s' h

/-! ## The archive chain engine (C7, C8, C10)

`src/converters/archive_converters.py` and `src/compressors/*.py`, modelled
over a symbolic file system: a file or folder is a `Node` value, a named
item on disk is an `FsEntry`.  An archive file's on-disk bytes are
abstracted to the entries the corresponding codec would reproduce on
extraction (the codecs themselves — `zipfile`, `tarfile`, `bz2`, `lzma`,
the external `7z` binary — are Python-standard-library/external
collaborators and are modelled as faithful inverses; IO errors are outside
the model, so every referenced entry exists). -/

/-- Python `str.lower()` (ASCII), via a structurally recursive map. -/
def pyLower (s : String) : String := String.mk (s.toList.map Char.toLower)

/-- Python `str.strip()`: drop whitespace from both ends. -/
def pyStrip (s : String) : String :=
  String.mk (((s.toList.dropWhile Char.isWhitespace).reverse.dropWhile
    Char.isWhitespace).reverse)

/-- Python `str.endswith(suffix)`. -/
def pyEndsWith (s suffix : String) : Bool := suffix.toList.isSuffixOf s.toList

/-- Python `str.startswith(prefix)`. -/
def pyStartsWith (s pre : String) : Bool := pre.toList.isPrefixOf s.toList

/-- Python `name[:-n]` for `0 < n ≤ len(name)`. -/
def pyDropRight (s : String) (n : Nat) : String :=
  String.mk (s.toList.take (s.toList.length - n))

/-- A symbolic file-system value.  `zipA`/`tarA`/`szA` carry the top-level
entries extraction reproduces; `gzA`/`bz2A`/`xzA` are single-stream codecs
wrapping the compressed file's value. -/
inductive Node where
  | plain (content : List Nat)
  | folder (entries : List (String × Node))
  | zipA (entries : List (String × Node))
  | tarA (entries : List (String × Node))
  | szA (entries : List (String × Node))
  | gzA (inner : Node)
  | bz2A (inner : Node)
  | xzA (inner : Node)

/-- A named item on disk. -/
structure FsEntry where
  name : String
  node : Node

/-- Python `Path.is_dir()` in the value model. -/
def Node.isDir : Node → Bool
  | .folder _ => true
  | _ => false

/-- Abstraction of `stat().st_size`: the byte count of a plain file;
directories report 0 (the source guards with `is_file()`); the on-disk size
of an archive is produced by the codecs, outside the model, and reported
as 0. -/
def Node.fileSize : Node → Nat
  | .plain c => c.length
  | _ => 0

/-- Python `pathlib.PurePath` name splitting for a plain file name:
`(stem, suffix)`, where the suffix starts at the last dot that is neither at
position 0 nor the final character. -/
def pathSplitExt (name : String) : String × String :=
  let cs := name.toList
  match ((List.range cs.length).filter (fun i => cs.getD i ' ' = '.')).getLast? with
  | none => (name, "")
  | some i =>
    if 0 < i ∧ i + 1 < cs.length then (String.mk (cs.take i), String.mk (cs.drop i))
    else (name, "")

/-- Python `Path.suffix` on a plain file name. -/
def pathSuffix (name : String) : String := (pathSplitExt name).2

/-- Python `Path.stem` on a plain file name. -/
def pathStem (name : String) : String := (pathSplitExt name).1

/-- Python `Path.with_suffix(suffix)` on a plain file name. -/
def pathWithSuffix (name suffix : String) : String := pathStem name ++ suffix

/-- `ArchiveConverter.ARCHIVE_FORMATS` (archive_converters.py lines 23-36). -/
def ARCHIVE_FORMATS : List String :=
  [".tar.gz", ".tar.bz2", ".tar.xz", ".tgz", ".tbz2", ".txz", ".tar", ".zip",
   ".gz", ".bz2", ".xz", ".7z"]

/-- Stable insertion, placing `x` before the first strictly shorter string. -/
def insertByLenDesc (x : String) : List String → List String
  | [] => [x]
  | y :: ys => if y.length < x.length then x :: y :: ys else y :: insertByLenDesc x ys

/-- Python `sorted(formats, key=len, reverse=True)`: a stable sort by
descending length. -/
def sortByLenDesc (l : List String) : List String :=
  l.foldl (fun acc x => insertByLenDesc x acc) []

/-- Result dict of a single-output compressor call: `success`, `message`,
optional `error`, and the entry standing for the file written at the output
path. -/
structure CompResult where
  success : Bool
  message : String
  error : Option String
  output : Option FsEntry

/-- Result dict of an extraction into a directory: on success, `entries` are
the top-level items of the extraction directory. -/
structure ExtractResult where
  success : Bool
  message : String
  error : Option String
  entries : List FsEntry

namespace ZipCompressor

/-- `ZipCompressor.compress` (zip_compressor.py lines 11-36): the output path
gets a `.zip` suffix when it lacks one; a file source is stored under the
arcname `source.name`, and a directory source is stored relative to its
parent, so extraction reproduces one top-level entry named `source.name`
either way. -/
def compress (source : FsEntry) (outputName : String) : CompResult :=
  let outName := if pyLower (pathSuffix outputName) = ".zip" then outputName
    else pathWithSuffix outputName ".zip"
  { success := true, message := "ZIP archive created successfully", error := none,
    output := some ⟨outName, .zipA [(source.name, source.node)]⟩ }

/-- `ZipCompressor.decompress` (zip_compressor.py lines 38-59):
`extractall` reproduces the archive's entries; a file that is not a zip
archive raises `BadZipFile`, caught and reported as a failure dict. -/
def decompress (source : FsEntry) : ExtractResult :=
  match source.node with
  | .zipA es =>
    { success := true, message := "ZIP archive extracted successfully",
      error := none, entries := es.map (fun p => ⟨p.1, p.2⟩) }
  | _ =>
    { success := false, message := "ZIP extraction failed: File is not a zip file",
      error := some "File is not a zip file", entries := [] }

end ZipCompressor

namespace TarCompressor

/-- `TarCompressor._WRITE_MODES` (tar_compressor.py lines 11-19). -/
def WRITE_MODES : List (String × String) :=
  [(".tar", "w"), (".tar.gz", "w:gz"), (".tgz", "w:gz"), (".tar.bz2", "w:bz2"),
   (".tbz2", "w:bz2"), (".tar.xz", "w:xz"), (".txz", "w:xz")]

/-- `TarCompressor._detect_tar_suffix` (lines 21-26): longest matching
suffix among the write modes, defaulting to `.tar`. -/
def detectTarSuffix (name : String) : String :=
  (((sortByLenDesc (WRITE_MODES.map Prod.fst)).find?
      (fun suffix => pyEndsWith (pyLower name) suffix))).getD ".tar"

/-- `TarCompressor.compress` (lines 28-49): `archive.add(source,
arcname=source.name)` stores one top-level entry; the suffix only selects
the compression mode. -/
def compress (source : FsEntry) (outputName : String) : CompResult :=
  let suffix := detectTarSuffix outputName
  { success := true, message := "TAR archive (" ++ suffix ++ ") created successfully",
    error := none, output := some ⟨outputName, .tarA [(source.name, source.node)]⟩ }

/-- `TarCompressor.decompress` (lines 51-70): `tarfile.open(source, "r:*")`
auto-detects the compression; a non-tar input raises `ReadError`, caught and
reported as a failure dict. -/
def decompress (source : FsEntry) : ExtractResult :=
  match source.node with
  | .tarA es =>
    { success := true, message := "TAR archive extracted successfully",
      error := none, entries := es.map (fun p => ⟨p.1, p.2⟩) }
  | _ =>
    { success := false, message := "TAR extraction failed: file could not be opened successfully",
      error := some "file could not be opened successfully", entries := [] }

end TarCompressor

namespace Bz2Compressor

/-- `Bz2Compressor.compress` (bz2_compressor.py lines 12-32): rejects
non-files; the output path gets `.bz2` appended when its suffix is not
`.bz2`; the stream wraps the source file's value. -/
def compress (source : FsEntry) (outputName : String) : CompResult :=
  if source.node.isDir then
    { success := false, message := "Input file not found: " ++ source.name,
      error := none, output := none }
  else
    let outName := if pyLower (pathSuffix outputName) = ".bz2" then outputName
      else outputName ++ ".bz2"
    { success := true, message := "BZip2 compression completed", error := none,
      output := some ⟨outName, .bz2A source.node⟩ }

/-- `Bz2Compressor.decompress` (lines 34-56) with an explicit output file:
restores the wrapped value; a non-bz2 stream raises, caught and reported. -/
def decompress (source : FsEntry) (outName : String) : CompResult :=
  match source.node with
  | .folder _ =>
    { success := false, message := "Archive file not found: " ++ source.name,
      error := none, output := none }
  | .bz2A inner =>
    { success := true, message := "BZip2 extraction completed", error := none,
      output := some ⟨outName, inner⟩ }
  | _ =>
    { success := false, message := "BZip2 extraction failed: Invalid data stream",
      error := some "Invalid data stream", output := none }

end Bz2Compressor

namespace XzCompressor

/-- `XzCompressor.compress` (xz_compressor.py lines 12-32), the `lzma`
analogue of `Bz2Compressor.compress`. -/
def compress (source : FsEntry) (outputName : String) : CompResult :=
  if source.node.isDir then
    { success := false, message := "Input file not found: " ++ source.name,
      error := none, output := none }
  else
    let outName := if pyLower (pathSuffix outputName) = ".xz" then outputName
      else outputName ++ ".xz"
    { success := true, message := "XZ compression completed", error := none,
      output := some ⟨outName, .xzA source.node⟩ }

/-- `XzCompressor.decompress` (lines 34-56) with an explicit output file. -/
def decompress (source : FsEntry) (outName : String) : CompResult :=
  match source.node with
  | .folder _ =>
    { success := false, message := "Archive file not found: " ++ source.name,
      error := none, output := none }
  | .xzA inner =>
    { success := true, message := "XZ extraction completed", error := none,
      output := some ⟨outName, inner⟩ }
  | _ =>
    { success := false, message := "XZ extraction failed: Input format not supported",
      error := some "Input format not supported", output := none }

end XzCompressor

namespace GzCompressor

/-- Modelled from the spec: `src/compressors/gz_compressor.py` is imported
by `src/compressors/__init__.py` but the module file is absent from the
source tree (see C10).  Specification §4.3 describes plain gzip as a
single-file codec (directories are rejected by the caller before this point)
whose decompression restores the original bytes, so it is modelled
symmetrically to the in-tree `Bz2Compressor`/`XzCompressor`. -/
def compress (source : FsEntry) (outputName : String) : CompResult :=
  if source.node.isDir then
    { success := false, message := "Input file not found: " ++ source.name,
      error := none, output := none }
  else
    let outName := if pyLower (pathSuffix outputName) = ".gz" then outputName
      else outputName ++ ".gz"
    { success := true, message := "GZip compression completed", error := none,
      output := some ⟨outName, .gzA source.node⟩ }

/-- Modelled from the spec: gzip decompression to an explicit output file,
the inverse of `GzCompressor.compress` (specification §4.3). -/
def decompress (source : FsEntry) (outName : String) : CompResult :=
  match source.node with
  | .folder _ =>
    { success := false, message := "Archive file not found: " ++ source.name,
      error := none, output := none }
  | .gzA inner =>
    { success := true, message := "GZip extraction completed", error := none,
      output := some ⟨outName, inner⟩ }
  | _ =>
    { success := false, message := "GZip extraction failed: Not a gzipped file",
      error := some "Not a gzipped file", output := none }

end GzCompressor

namespace SevenZCompressor

/-- `SevenZCompressor.compress` (seven_z_compressor.py lines 20-44): runs
`7z a -t7z output source`, which stores `source` as one top-level entry; the
output path's suffix is replaced by `.7z` when needed.  The external binary
is taken as present and functioning (its absence raises
`DependencyMissingError`, outside the model). -/
def compress (source : FsEntry) (outputName : String) : CompResult :=
  let outName := if pyLower (pathSuffix outputName) = ".7z" then outputName
    else pathWithSuffix outputName ".7z"
  { success := true, message := "7z archive created successfully", error := none,
    output := some ⟨outName, .szA [(source.name, source.node)]⟩ }

/-- `SevenZCompressor.decompress` (lines 46-69): `7z x source -o dir -y`
reproduces the archive's entries; a non-7z input makes the binary return
non-zero, reported as a failure dict. -/
def decompress (source : FsEntry) : ExtractResult :=
  match source.node with
  | .szA es =>
    { success := true, message := "7z archive extracted successfully",
      error := none, entries := es.map (fun p => ⟨p.1, p.2⟩) }
  | _ =>
    { success := false, message := "7z extraction failed: Can not open the file as archive",
      error := some "Can not open the file as archive", entries := [] }

end SevenZCompressor

namespace ArchiveConverter

/-- `ArchiveConverter._detect_archive_format` (archive_converters.py lines
74-79): the longest recognized archive suffix of the lowercased name. -/
def detectArchiveFormat (name : String) : Option String :=
  (sortByLenDesc ARCHIVE_FORMATS).find? (fun fmt => pyEndsWith (pyLower name) fmt)

/-- `ArchiveConverter._base_stem` (lines 81-85): the name with its archive
suffix removed (`name[:-len(fmt)] or path.stem`), falling back to the plain
stem. -/
def baseStem (name : String) : String :=
  match detectArchiveFormat name with
  | none => pathStem name
  | some fmt =>
    let cut := pyDropRight name fmt.toList.length
    if cut = "" then pathStem name else cut

/-- `ArchiveConverter._normalize_output_format` (lines 53-61). -/
def normalizeOutputFormat (outputFormat : String) : Except String String :=
  let fmt := pyLower (pyStrip outputFormat)
  if fmt = "" then .error "Missing output archive format"
  else
    let fmt := if pyStartsWith fmt "." then fmt else "." ++ fmt
    if ARCHIVE_FORMATS.contains fmt then .ok fmt
    else .error ("Unsupported archive output format: " ++ fmt)

/-- The token splitter of the regular expression used by
`_parse_output_chain`: cut at every `->`, `=>`, `>`, comma or pipe (the
whitespace the pattern absorbs is immaterial because every part is stripped
afterwards). -/
def splitChainTokens : List Char -> List (List Char)
  | [] => [[]]
  | '-' :: '>' :: rest => [] :: splitChainTokens rest
  | '=' :: '>' :: rest => [] :: splitChainTokens rest
  | '>' :: rest => [] :: splitChainTokens rest
  | ',' :: rest => [] :: splitChainTokens rest
  | '|' :: rest => [] :: splitChainTokens rest
  | c :: rest =>
    match splitChainTokens rest with
    | [] => [[c]]
    | p :: ps => (c :: p) :: ps

/-- `ArchiveConverter._parse_output_chain` (lines 63-72): split the spec on
the separator tokens, strip each part, drop empties, and normalize each part
— raising `UnsupportedFormatError` (the `Except.error`) on an empty chain or
an unrecognized token. -/
def parseOutputChain (outputFormat : String) : Except String (List String) :=
  let raw := pyLower (pyStrip outputFormat)
  if raw = "" then .error "Missing output archive format"
  else
    let parts := ((splitChainTokens raw.toList).map
      (fun cs => pyStrip (String.mk cs))).filter (fun p => p ≠ "")
    if parts = [] then .error "Missing output archive format"
    else parts.mapM normalizeOutputFormat

/-- `ArchiveConverter._compress_to_format` (lines 87-106): dispatch on the
target format; the single-file codecs reject directory payloads before the
compressor is reached. -/
def compressToFormat (sourcePath : FsEntry) (targetFormat : String) (outputName : String) :
    CompResult :=
  if targetFormat = ".zip" then ZipCompressor.compress sourcePath outputName
  else if [".tar", ".tar.gz", ".tgz", ".tar.bz2", ".tbz2", ".tar.xz", ".txz"].contains targetFormat then
    TarCompressor.compress sourcePath outputName
  else if targetFormat = ".gz" then
    if sourcePath.node.isDir then
      { success := false, message := "GZIP supports single files only. Use tar.gz for folders.",
        error := none, output := none }
    else GzCompressor.compress sourcePath outputName
  else if targetFormat = ".bz2" then
    if sourcePath.node.isDir then
      { success := false, message := "BZip2 supports single files only. Use tar.bz2 for folders.",
        error := none, output := none }
    else Bz2Compressor.compress sourcePath outputName
  else if targetFormat = ".xz" then
    if sourcePath.node.isDir then
      { success := false, message := "XZ supports single files only. Use tar.xz for folders.",
        error := none, output := none }
    else XzCompressor.compress sourcePath outputName
  else if targetFormat = ".7z" then SevenZCompressor.compress sourcePath outputName
  else
    { success := false, message := "Unsupported target archive format: " ++ targetFormat,
      error := none, output := none }

/-- Lift a single-file decompression result to an extraction result: the
extraction directory holds the one written output file. -/
def singleFileExtract (r : CompResult) : ExtractResult :=
  { success := r.success, message := r.message, error := r.error,
    entries := match r.output with | some e => [e] | none => [] }

/-- `ArchiveConverter._extract_archive` (lines 108-131): dispatch on the
detected format of the archive name; the single-stream codecs write to
`output_dir / self._base_stem(archive_path)`. -/
def extractArchive (archive : FsEntry) : ExtractResult :=
  match detectArchiveFormat archive.name with
  | none =>
    { success := false, message := "Input is not a recognized archive: " ++ archive.name,
      error := none, entries := [] }
  | some sourceFormat =>
    if sourceFormat = ".zip" then ZipCompressor.decompress archive
    else if [".tar", ".tar.gz", ".tgz", ".tar.bz2", ".tbz2", ".tar.xz", ".txz"].contains sourceFormat then
      TarCompressor.decompress archive
    else if sourceFormat = ".gz" then
      singleFileExtract (GzCompressor.decompress archive (baseStem archive.name))
    else if sourceFormat = ".bz2" then
      singleFileExtract (Bz2Compressor.decompress archive (baseStem archive.name))
    else if sourceFormat = ".xz" then
      singleFileExtract (XzCompressor.decompress archive (baseStem archive.name))
    else if sourceFormat = ".7z" then SevenZCompressor.decompress archive
    else
      { success := false, message := "Unsupported input archive format: " ++ sourceFormat,
        error := none, entries := [] }

/-- An event of a chain conversion: a step attempt, or the creation/removal
of a temporary staging directory (numbered by a freshness counter). -/
inductive ChainEvent where
  | stepStarted (index : Nat) (target : String)
  | tempCreated (id : Nat)
  | tempRemoved (id : Nat)
  deriving Repr, DecidableEq

/-- The failure dict of `_convert_single` (lines 140-147 and 155-163). -/
structure StepFailure where
  inputFile : String
  formatFrom : String
  formatTo : String
  message : String
  error : Option String

/-- The success dict of `_convert_single` (lines 165-171); `output` is the
file written at the step's output path. -/
structure StepSuccess where
  inputFile : String
  output : FsEntry
  formatFrom : String
  formatTo : String

/-- `ArchiveConverter._convert_single` (lines 133-171).  An archive input is
extracted inside a fresh `TemporaryDirectory` (created and removed around
the body, whatever the outcome — the events record both); when extraction
yields exactly one top-level entry it becomes the payload, otherwise the
whole extraction directory (named `extracted`) does.  Returns the step
result, the temp-directory events, and the next fresh counter. -/
def convertSingle (inputEntry : FsEntry) (targetFormat : String) (outputName : String)
    (fresh : Nat) : Except StepFailure StepSuccess × List ChainEvent × Nat :=
  match detectArchiveFormat inputEntry.name with
  | some sourceFormat =>
    let ex := extractArchive inputEntry
    let res : Except StepFailure StepSuccess :=
      if ex.success then
        let payload : FsEntry :=
          match ex.entries with
          | [single] => single
          | _ => ⟨"extracted", .folder (ex.entries.map (fun e => (e.name, e.node)))⟩
        let comp := compressToFormat payload targetFormat outputName
        if comp.success then
          match comp.output with
          | some out => .ok ⟨inputEntry.name, out, sourceFormat, targetFormat⟩
          | none => .error ⟨inputEntry.name, sourceFormat, targetFormat, comp.message, comp.error⟩
        else .error ⟨inputEntry.name, sourceFormat, targetFormat, comp.message, comp.error⟩
      else .error ⟨inputEntry.name, sourceFormat, targetFormat, ex.message, ex.error⟩
    (res, [.tempCreated fresh, .tempRemoved fresh], fresh + 1)
  | none =>
    let fromFormat :=
      if pyLower (pathSuffix inputEntry.name) ≠ "" then pyLower (pathSuffix inputEntry.name)
      else "(folder)"
    let comp := compressToFormat inputEntry targetFormat outputName
    let res : Except StepFailure StepSuccess :=
      if comp.success then
        match comp.output with
        | some out => .ok ⟨inputEntry.name, out, fromFormat, targetFormat⟩
        | none => .error ⟨inputEntry.name, fromFormat, targetFormat, comp.message, comp.error⟩
      else .error ⟨inputEntry.name, fromFormat, targetFormat, comp.message, comp.error⟩
    (res, [], fresh)

/-- One entry of the success result's `steps` audit trail (lines 209-214). -/
structure ChainStep where
  step : Nat
  fromFormat : String
  toFormat : String
  outputFile : String

/-- The output path of one chain step (lines 197-198): the declared final
output path for the last step, a `step_i` path inside the chain's temporary
root for intermediate steps. -/
def stepOutputName (finalOutputName : String) (index : Nat) (target : String)
    (rest : List String) : String :=
  if rest.isEmpty then finalOutputName
  else "step_" ++ toString (index + 1) ++ target

/-- The loop over `target_chain` in `ArchiveConverter.convert`
(lines 196-215): on a step failure the loop returns at once with the failing
step's 1-indexed number.  Also returns the ordered event log and the final
fresh counter. -/
def runChainSteps (finalOutputName : String) :
    FsEntry -> List String -> Nat -> List ChainStep -> Nat ->
      Except (StepFailure × Nat) (FsEntry × List ChainStep) × List ChainEvent × Nat
  | current, [], index, acc, fresh => (.ok (current, acc), [], fresh)
  | current, target :: rest, index, acc, fresh =>
    let res := (convertSingle current target
      (stepOutputName finalOutputName index target rest) fresh).1
    let log1 := (convertSingle current target
      (stepOutputName finalOutputName index target rest) fresh).2.1
    let fresh1 := (convertSingle current target
      (stepOutputName finalOutputName index target rest) fresh).2.2
    match res with
    | .error fail =>
      (.error (fail, index + 1), .stepStarted (index + 1) target :: log1, fresh1)
    | .ok suc =>
      let info : ChainStep := ⟨index + 1, suc.formatFrom, suc.formatTo, suc.output.name⟩
      let rec1 := runChainSteps finalOutputName suc.output rest (index + 1) (acc ++ [info]) fresh1
      (rec1.1, .stepStarted (index + 1) target :: log1 ++ rec1.2.1, rec1.2.2)

/-- The result dict of `ArchiveConverter.convert`: optional fields model
keys present only in some outcomes — a failure result merges the failing
step's dict with `chain` and `failed_step` (lines 202-207, with *no*
`steps` key), a success result carries the audit trail, sizes and message
(lines 217-228). -/
structure ChainResult where
  success : Bool
  inputFile : String
  outputFile : Option FsEntry
  formatFrom : Option String
  formatTo : Option String
  message : Option String
  error : Option String
  chain : Option (List String)
  failedStep : Option Nat
  steps : Option (List ChainStep)
  originalSize : Option Nat
  newSize : Option Nat

/-- `ArchiveConverter.convert` (lines 173-238).  The `Except.error` is the
`UnsupportedFormatError` that `_parse_output_chain` raises before the `try`
block.  The input entry stands for the file or folder at `input_file`
(which exists — the `input_path.exists()` guard of line 183 — because the
value model only names existing items).  One temporary root is created for
the whole chain and removed when the `with` block exits, on failure and
success alike; `outputFile` on success is the artifact written by the last
step, whose name is the declared final output path (the source stores
`str(final_output_path)`; the two coincide because the declared final name
bears the last target's extension, so no compressor adjusts it). -/
def convert (inputEntry : FsEntry) (outputFormat : String) (outputFile : Option String) :
    Except String (ChainResult × List ChainEvent) :=
  match parseOutputChain outputFormat with
  | .error e => .error e
  | .ok targetChain =>
  match targetChain.getLast? with
  | none => .error "Missing output archive format"
  | some lastFmt =>
    let finalOutputName :=
      match outputFile with
      | some name => name
      | none => baseStem inputEntry.name ++ lastFmt
    let tempRoot := 0
    let run := runChainSteps finalOutputName inputEntry targetChain 0 [] 1
    let fullLog := ChainEvent.tempCreated tempRoot :: run.2.1 ++ [ChainEvent.tempRemoved tempRoot]
    match run.1 with
    | .error (fail, failedIndex) =>
      .ok ({ success := false, inputFile := fail.inputFile, outputFile := none,
             formatFrom := some fail.formatFrom, formatTo := some fail.formatTo,
             message := some fail.message, error := fail.error,
             chain := some targetChain, failedStep := some failedIndex,
             steps := none, originalSize := none, newSize := none }, fullLog)
    | .ok (finalEntry, steps) =>
      .ok ({ success := true, inputFile := inputEntry.name,
             outputFile := some finalEntry,
             formatFrom := some ((detectArchiveFormat inputEntry.name).getD
               (if pyLower (pathSuffix inputEntry.name) ≠ "" then pyLower (pathSuffix inputEntry.name)
                else "(folder)")),
             formatTo := some lastFmt,
             message := some ("Archive conversion completed: " ++ inputEntry.name ++ " -> " ++
               finalEntry.name ++ " via " ++ String.intercalate " -> " targetChain),
             error := none, chain := some targetChain, failedStep := none,
             steps := some steps,
             originalSize := some inputEntry.node.fileSize,
             newSize := some finalEntry.node.fileSize }, fullLog)

/-- The temporary directories created in an event log. -/
def createdIds : List ChainEvent -> List Nat
  | [] => []
  | .tempCreated n :: rest => n :: createdIds rest
  | _ :: rest => createdIds rest

/-- The temporary directories removed in an event log. -/
def removedIds : List ChainEvent -> List Nat
  | [] => []
  | .tempRemoved n :: rest => n :: removedIds rest
  | _ :: rest => removedIds rest

/-- The 1-indexed steps attempted in an event log, in order. -/
def startedSteps : List ChainEvent -> List Nat
  | [] => []
  | .stepStarted i _ :: rest => i :: startedSteps rest
  | _ :: rest => startedSteps rest

end ArchiveConverter

/-! ## C10: the missing gz_compressor module -/

/-- The module files present in `src/compressors/` in the source tree. -/
def compressorsPackageModules : List String :=
  ["__init__", "bz2_compressor", "seven_z_compressor", "tar_compressor",
   "xz_compressor", "zip_compressor"]

/-- The relative imports executed by `src/compressors/__init__.py`
(lines 3-8), in order. -/
def compressorsInitImports : List String :=
  ["zip_compressor", "tar_compressor", "gz_compressor", "bz2_compressor",
   "xz_compressor", "seven_z_compressor"]

/-- Whether `import src.compressors` succeeds: every relative import of the
package initializer must resolve to a module file of the package, else
`ImportError` propagates. -/
def compressorsImportSucceeds : Bool :=
  compressorsInitImports.all (fun m => compressorsPackageModules.contains m)

/-- The runtime entry to an archive chain conversion.
`archive_converters.py` begins with `from ..compressors import (...,
GzCompressor, ...)` (lines 10-17) and `ArchiveConverter.__init__`
instantiates `GzCompressor()` (line 42); when the compressors package fails
to import, the converter class is never defined, no instance can be
constructed, and no conversion runs (`none`). -/
def archiveChainConvertRuntime (inputEntry : FsEntry) (outputFormat : String)
    (outputFile : Option String) :
    Option (Except String (ArchiveConverter.ChainResult × List ArchiveConverter.ChainEvent)) :=
  if compressorsImportSucceeds then
    some (ArchiveConverter.convert inputEntry outputFormat outputFile)
  else none

/-! ## C7, C8, C10: theorems about the archive chain engine -/

namespace ArchiveConverter

theorem startedSteps_append (a b : List ChainEvent) :
    startedSteps (a ++ b) = startedSteps a ++ startedSteps b := by
  induction a with
  | nil => rfl
  | cons e rest ih => cases e <;> simp [startedSteps, ih]

theorem createdIds_append (a b : List ChainEvent) :
    createdIds (a ++ b) = createdIds a ++ createdIds b := by
  induction a with
  | nil => rfl
  | cons e rest ih => cases e <;> simp [createdIds, ih]

theorem removedIds_append (a b : List ChainEvent) :
    removedIds (a ++ b) = removedIds a ++ removedIds b := by
  induction a with
  | nil => rfl
  | cons e rest ih => cases e <;> simp [removedIds, ih]

/-- The events of one `_convert_single` call: no step markers, and its
temporary directory (created for extraction) is always removed. -/
theorem convertSingle_log_shape (e : FsEntry) (t o : String) (fresh : Nat) :
    startedSteps (convertSingle e t o fresh).2.1 = []
    ∧ createdIds (convertSingle e t o fresh).2.1 =
        removedIds (convertSingle e t o fresh).2.1 := by
  unfold convertSingle
  cases detectArchiveFormat e.name <;>
    simp [startedSteps, createdIds, removedIds]

/-- The chain loop attempts steps `index+1, index+2, ...` in order, stops at
the first failure `k` (so exactly steps `index+1 .. k` were started), on
success starts every remaining step and extends the audit trail by one entry
per step, and always balances temporary-directory creations with
removals. -/
theorem runChainSteps_spec (finalName : String) :
    ∀ (remaining : List String) (current : FsEntry) (index : Nat)
      (acc : List ChainStep) (fresh : Nat),
      (∀ fail k, (runChainSteps finalName current remaining index acc fresh).1 =
            .error (fail, k) →
          index < k ∧ k ≤ index + remaining.length
          ∧ startedSteps (runChainSteps finalName current remaining index acc fresh).2.1 =
              List.range' (index + 1) (k - index))
      ∧ (∀ out steps, (runChainSteps finalName current remaining index acc fresh).1 =
            .ok (out, steps) →
          startedSteps (runChainSteps finalName current remaining index acc fresh).2.1 =
            List.range' (index + 1) remaining.length
          ∧ steps.length = acc.length + remaining.length)
      ∧ createdIds (runChainSteps finalName current remaining index acc fresh).2.1 =
          removedIds (runChainSteps finalName current remaining index acc fresh).2.1 := by
  intro remaining
  induction remaining with
  | nil =>
    intro current index acc fresh
    refine ⟨?_, ?_, rfl⟩
    · intro fail k h
      simp [runChainSteps] at h
    · intro out steps h
      simp only [runChainSteps] at h
      injection h with h1
      injection h1 with _ h2
      subst h2
      simp [runChainSteps, List.range', startedSteps]
  | cons target rest ih =>
    intro current index acc fresh
    have hcs := convertSingle_log_shape current target
      (stepOutputName finalName index target rest) fresh
    simp only [runChainSteps]
    cases hres : (convertSingle current target
        (stepOutputName finalName index target rest) fresh).1 with
    | error fail =>
      refine ⟨?_, ?_, ?_⟩
      · intro fail2 k h
        simp only [hres] at h
        injection h with h1
        injection h1 with _ h2
        subst h2
        refine ⟨by omega, by simp, ?_⟩
        simp [startedSteps, hcs.1, List.range']
      · intro out steps h
        simp only [hres] at h
        cases h
      · simp [createdIds, removedIds, hcs.2]
    | ok suc =>
      have ihspec := ih suc.output (index + 1)
        (acc ++ [⟨index + 1, suc.formatFrom, suc.formatTo, suc.output.name⟩])
        (convertSingle current target
          (stepOutputName finalName index target rest) fresh).2.2
      refine ⟨?_, ?_, ?_⟩
      · intro fail k h
        simp only [hres] at h
        obtain ⟨hlt, hle, hst⟩ := ihspec.1 fail k h
        refine ⟨by omega, by simp; omega, ?_⟩
        have hk : k - index = (k - (index + 1)) + 1 := by omega
        simp [startedSteps, startedSteps_append, hcs.1, hst, hk, List.range']
      · intro out steps h
        simp only [hres] at h
        obtain ⟨hst, hlen⟩ := ihspec.2.1 out steps h
        constructor
        · simp [startedSteps, startedSteps_append, hcs.1, hst, List.range']
        · simp at hlen
          simp [hlen]
          omega
      · simp [createdIds, removedIds, createdIds_append, removedIds_append,
          hcs.2, ihspec.2.2]

end ArchiveConverter

namespace ArchiveConverter

/-- C7 as amended: whenever a chain conversion returns (rather than raising
on an unparsable chain spec), every temporary staging directory created is
also removed; on a step failure the chain aborts at that step — exactly
steps `1..k` were attempted — and the failure result reports the parsed
chain and the 1-indexed failed step `k`, but carries *no* `steps` key: the
accumulated successful steps are reported only in success results, whose
audit trail covers the whole chain. -/
theorem chain_aborts_reports_failed_step_and_cleans_temp_dirs
    (inputEntry : FsEntry) (outputFormat : String) (outputFile : Option String)
    (cr : ChainResult) (log : List ChainEvent)
    (h : convert inputEntry outputFormat outputFile = .ok (cr, log)) :
    (createdIds log).Perm (removedIds log)
    ∧ (cr.success = false →
        ∃ chain k, cr.chain = some chain ∧ cr.failedStep = some k
          ∧ 1 ≤ k ∧ k ≤ chain.length
          ∧ startedSteps log = List.range' 1 k
          ∧ cr.steps = none ∧ cr.outputFile = none)
    ∧ (cr.success = true →
        cr.failedStep = none
        ∧ ∃ chain steps, cr.chain = some chain ∧ cr.steps = some steps
            ∧ steps.length = chain.length
            ∧ startedSteps log = List.range' 1 chain.length) := by
  unfold convert at h
  split at h
  · cases h
  next targetChain hp =>
  split at h
  · cases h
  next lastFmt hl =>
  have hchain : targetChain ≠ [] := by
    intro hnil; rw [hnil] at hl; cases hl
  generalize hfn : (match outputFile with
    | some name => name
    | none => baseStem inputEntry.name ++ lastFmt) = finalName at h
  have hspec := runChainSteps_spec finalName targetChain inputEntry 0 [] 1
  dsimp only [] at h
  cases hrun : (runChainSteps finalName inputEntry targetChain 0 [] 1).1 with
  | error failPair =>
    obtain ⟨fail, failedIndex⟩ := failPair
    rw [hrun] at h
    dsimp only [] at h
    injection h with h1
    injection h1 with hcr hlog
    subst hcr hlog
    obtain ⟨hlt, hle, hst⟩ := hspec.1 fail failedIndex hrun
    refine ⟨?_, ?_, ?_⟩
    · simp only [List.append_eq, createdIds, removedIds, createdIds_append,
        removedIds_append, List.append_nil, hspec.2.2]
      exact (List.perm_append_singleton 0 _).symm
    · intro _
      refine ⟨targetChain, failedIndex, rfl, rfl, by omega, by omega, ?_, rfl, rfl⟩
      simp [List.append_eq, startedSteps, startedSteps_append, hst]
    · intro hfalse
      cases hfalse
  | ok okPair =>
    obtain ⟨finalEntry, steps⟩ := okPair
    rw [hrun] at h
    dsimp only [] at h
    injection h with h1
    injection h1 with hcr hlog
    subst hcr hlog
    obtain ⟨hst, hlen⟩ := hspec.2.1 finalEntry steps hrun
    refine ⟨?_, ?_, ?_⟩
    · simp only [List.append_eq, createdIds, removedIds, createdIds_append,
        removedIds_append, List.append_nil, hspec.2.2]
      exact (List.perm_append_singleton 0 _).symm
    · intro hfalse
      cases hfalse
    · intro _
      refine ⟨rfl, targetChain, steps, rfl, rfl, by simpa using hlen, ?_⟩
      simp [List.append_eq, startedSteps, startedSteps_append, hst]

/-- The C7 example input: a zip archive holding two files, converted through
the chain `zip->gz` — step 1 (recompress to zip) succeeds, step 2 fails
because plain gzip rejects the multi-entry directory payload. -/
def c7input : FsEntry :=
  ⟨"in.zip", .zipA [("a.txt", .plain [1]), ("b.txt", .plain [2])]⟩

/-- The result and event log of the C7 example conversion. -/
def c7pair : ChainResult × List ChainEvent :=
  match convert c7input "zip->gz" none with
  | .ok p => p
  | .error _ =>
    ({ success := false, inputFile := "", outputFile := none, formatFrom := none,
       formatTo := none, message := none, error := none, chain := none,
       failedStep := none, steps := none, originalSize := none, newSize := none }, [])

set_option maxHeartbeats 2000000 in
/-- Counterexample to C7 as stated: the failing `zip->gz` chain aborts at
step 2 and reports `failed_step = 2`, but the failure result has *no*
`steps` key — the accumulated successful step 1 is not reported.  (Both
steps were attempted, so step 1 had succeeded; all staging directories were
removed.) -/
theorem chain_failure_omits_successful_steps_counterexample :
    (convert c7input "zip->gz" none).toOption.map (fun p => p.1.success) = some false
    ∧ (convert c7input "zip->gz" none).toOption.map (fun p => p.1.failedStep) =
        some (some 2)
    ∧ (convert c7input "zip->gz" none).toOption.map (fun p => p.1.steps) = some none
    ∧ (convert c7input "zip->gz" none).toOption.map (fun p => startedSteps p.2) =
        some [1, 2]
    ∧ (convert c7input "zip->gz" none).toOption.map (fun p => p.1.message) =
        some (some "GZIP supports single files only. Use tar.gz for folders.")
    ∧ (convert c7input "zip->gz" none).toOption.map (fun p => p.2) =
        some [ChainEvent.tempCreated 0, .stepStarted 1 ".zip", .tempCreated 1,
          .tempRemoved 1, .stepStarted 2 ".gz", .tempCreated 2, .tempRemoved 2,
          .tempRemoved 0] :=
  ⟨rfl, rfl, rfl, rfl, rfl, rfl⟩

set_option maxHeartbeats 2000000 in
/-- Witness for the amended C7 at the example conversion. -/
theorem chain_aborts_reports_failed_step_witness :
    (createdIds c7pair.2).Perm (removedIds c7pair.2)
    ∧ c7pair.1.steps = none ∧ c7pair.1.failedStep = some 2 :=
  ⟨(chain_aborts_reports_failed_step_and_cleans_temp_dirs c7input "zip->gz" none
      c7pair.1 c7pair.2 rfl).1, rfl, rfl⟩

set_option maxHeartbeats 2000000 in
/-- Counterexample to C8 as stated: a single regular file is not always
round-trippable through `.zip` then `.tar.gz` — for the plain file
`notes.zip` (three bytes that are not a zip archive) the longest-suffix
detection classifies the *name* as a zip archive, step 1 attempts extraction
instead of packaging, the extraction fails, and the whole chain aborts at
step 1 with no final archive to decompress. -/
theorem chain_round_trip_fails_for_archive_named_file_counterexample :
    (convert ⟨"notes.zip", .plain [1, 2, 3]⟩ "zip->tar.gz" none).toOption.map
      (fun p => p.1.success) = some false
    ∧ (convert ⟨"notes.zip", .plain [1, 2, 3]⟩ "zip->tar.gz" none).toOption.map
      (fun p => p.1.failedStep) = some (some 1)
    ∧ (convert ⟨"notes.zip", .plain [1, 2, 3]⟩ "zip->tar.gz" none).toOption.map
      (fun p => p.1.outputFile.isSome) = some false
    ∧ (convert ⟨"notes.zip", .plain [1, 2, 3]⟩ "zip->tar.gz" none).toOption.map
      (fun p => p.1.message) =
      some (some "ZIP extraction failed: File is not a zip file")
    ∧ detectArchiveFormat "notes.zip" = some ".zip" :=
  ⟨rfl, rfl, rfl, rfl, rfl⟩

set_option maxHeartbeats 2000000 in
/-- C8 as amended: for every single regular file whose name does not bear a
recognized archive suffix (so the chain engine packages it instead of trying
to extract it), compressing it — whatever its name and byte contents —
through the archive chain `.zip` then `.tar.gz` succeeds, and decompressing
the final archive yields the one file back, under its original name, with
byte-identical contents.  (A plain file whose name ends in an archive
suffix is sent down the extraction path by `_detect_archive_format` and the
chain aborts at step 1 — see the counterexample.) -/
theorem archive_chain_zip_targz_round_trip_for_non_archive_names
    (name : String) (c : List Nat) (hdet : detectArchiveFormat name = none) :
    (convert ⟨name, .plain c⟩ "zip->tar.gz" (some "out.tar.gz")).toOption.map
      (fun p => p.1.success) = some true
    ∧ ((convert ⟨name, .plain c⟩ "zip->tar.gz" (some "out.tar.gz")).toOption.bind
        (fun p => p.1.outputFile)) = some ⟨"out.tar.gz", .tarA [(name, .plain c)]⟩
    ∧ ((convert ⟨name, .plain c⟩ "zip->tar.gz" (some "out.tar.gz")).toOption.bind
        (fun p => p.1.outputFile)).map (fun e => (extractArchive e).success) = some true
    ∧ ((convert ⟨name, .plain c⟩ "zip->tar.gz" (some "out.tar.gz")).toOption.bind
        (fun p => p.1.outputFile)).map (fun e => (extractArchive e).entries) =
        some [⟨name, .plain c⟩] := by
  have h1 : convertSingle ⟨name, .plain c⟩ ".zip"
      (stepOutputName "out.tar.gz" 0 ".zip" [".tar.gz"]) 1 =
      (.ok ⟨name, ⟨"step_1.zip", .zipA [(name, .plain c)]⟩,
        (if pyLower (pathSuffix name) ≠ "" then pyLower (pathSuffix name) else "(folder)"),
        ".zip"⟩, [], 1) := by
    unfold convertSingle
    rw [hdet]
    rfl
  have h2 : convertSingle ⟨"step_1.zip", .zipA [(name, .plain c)]⟩ ".tar.gz"
      (stepOutputName "out.tar.gz" 1 ".tar.gz" []) 1 =
      (.ok ⟨"step_1.zip", ⟨"out.tar.gz", .tarA [(name, .plain c)]⟩, ".zip", ".tar.gz"⟩,
        [.tempCreated 1, .tempRemoved 1], 2) := rfl
  have hparse : parseOutputChain "zip->tar.gz" = .ok [".zip", ".tar.gz"] := rfl
  unfold convert
  rw [hparse]
  dsimp only
  unfold runChainSteps
  rw [h1]
  dsimp only
  unfold runChainSteps
  rw [h2]
  dsimp only
  exact ⟨rfl, rfl, rfl, rfl⟩

set_option maxHeartbeats 2000000 in
/-- Witness for the amended C8 at the concrete file `data.txt` with contents
`[1, 2, 3]`: the chain succeeds and extraction restores the file. -/
theorem archive_chain_zip_targz_round_trip_witness :
    (convert ⟨"data.txt", .plain [1, 2, 3]⟩ "zip->tar.gz" (some "out.tar.gz")).toOption.map
      (fun p => p.1.success) = some true
    ∧ ((convert ⟨"data.txt", .plain [1, 2, 3]⟩ "zip->tar.gz" (some "out.tar.gz")).toOption.bind
        (fun p => p.1.outputFile)).map (fun e => (extractArchive e).entries) =
        some [⟨"data.txt", .plain [1, 2, 3]⟩] := by
  have h := archive_chain_zip_targz_round_trip_for_non_archive_names "data.txt" [1, 2, 3] rfl
  exact ⟨h.1, h.2.2.2⟩

end ArchiveConverter

/-- C10: the compressors package imports the module `gz_compressor`, which
does not exist in the source tree, so importing `src.compressors` (and with
it `archive_converters`, whose `ArchiveConverter.__init__` instantiates
`GzCompressor`) fails, and no archive chain conversion — for any input,
chain spec or output path — can ever return a result, let alone a success. -/
theorem missing_gz_compressor_blocks_archive_chain :
    "gz_compressor" ∉ compressorsPackageModules
    ∧ ("gz_compressor" ∈ compressorsInitImports)
    ∧ compressorsImportSucceeds = false
    ∧ ∀ (inputEntry : FsEntry) (outputFormat : String) (outputFile : Option String),
        archiveChainConvertRuntime inputEntry outputFormat outputFile = none :=
  ⟨by decide, by decide, by decide, fun _ _ _ => rfl⟩

end DocConverter
